import Mathlib

/-!
Verification of the furniture-scraper core (orchestrator, adapter contract,
link collection, retry combinator, crawl cache, concurrency-bounded pipeline)
against its natural-language specification.  Each JavaScript function under
scrutiny is shallowly embedded as an executable Lean definition; effectful
collaborators (the browser, the storage sink, the file system) appear as
explicit outcome parameters.
-/

namespace Scraper

/-! ## Data model: raw and standardized product records

Mirrors the fields read by the four adapters' `transformProductData`
implementations.  JavaScript `undefined`/`null` field values are modelled as
`Option.none`; JS falsiness of the empty string is modelled explicitly. -/

/-- Structured linked-data blob (`jsonLd`) as consumed by the transforms:
only `name`, `offers` and `sku` are ever read.  `offers` is kept in its
already-stringified form since the transforms only `JSON.stringify` it. -/
structure JsonLd where
  name : Option String
  offers : Option String
  sku : Option String
deriving Repr, DecidableEq

/-- Raw product record handed to `transformProductData`: the union of fields
any of the adapters' extractors produce and their transforms read. -/
structure RawProduct where
  jsonLd : Option JsonLd
  manualExtraction : Bool
  url : Option String
  slug : Option String
  productId : Option String
  name : Option String
  price : Option String
  imageUrl : Option String
  description : Option String
deriving Repr, DecidableEq

/-- Standardized record produced by the transforms.  Fields that a transform
can leave `undefined` (for example `product_id` when the raw record carries
no identifier) are `Option`-valued. -/
structure StandardRecord where
  retailer : String
  product_id : Option String
  name : String
  slug : Option String
  price : Option String
  url : Option String
  image_url : Option String
  description : Option String
deriving Repr, DecidableEq

/-- JS `a || b` for a possibly-undefined string `a`: the empty string is
falsy, so it also falls through to the default. -/
def jsOr (a : Option String) (b : String) : String :=
  match a with
  | none => b
  | some s => if s = "" then b else s

/-- JS `a || b` where the default is `null` (used for `jsonLd.offers ?
JSON.stringify(jsonLd.offers) : null`): keeps `none` when absent. -/
def jsOrNull (a : Option String) : Option String :=
  match a with
  | none => none
  | some s => if s = "" then none else some s

/-- Transform of the 1stDibs adapter (`firstdibs-adapter.js`): returns `null`
only for a `null` input; otherwise copies `productId` through unchanged
(possibly `undefined`) and defaults the display fields. -/
def firstDibsTransform (productData : Option RawProduct) : Option StandardRecord :=
  match productData with
  | none => none
  | some r =>
    some {
      retailer := "1stDibs"
      product_id := r.productId
      name := jsOr r.name ""
      slug := r.slug
      price := some (jsOr r.price "Price not available")
      url := r.url
      image_url := some (jsOr r.imageUrl "")
      description := some (jsOr r.description "") }

/-- Transform of the Wayfair adapter (`wayfair-adapter.js`): handles the
JSON-LD shape, then the manual-extraction shape, otherwise returns `null`. -/
def wayfairTransform (productData : Option RawProduct) : Option StandardRecord :=
  match productData with
  | none => none
  | some r =>
    match r.jsonLd with
    | some ld =>
      some {
        retailer := "Wayfair"
        product_id := r.productId
        name := jsOr ld.name ""
        slug := r.slug
        price := ld.offers
        url := r.url
        image_url := none
        description := none }
    | none =>
      if r.manualExtraction then
        some {
          retailer := "Wayfair"
          product_id := r.productId
          name := jsOr r.name ""
          slug := r.slug
          price := some (jsOr r.price "")
          url := r.url
          image_url := none
          description := none }
      else
        none

/-- Transform of the IKEA adapter: returns `null` when the input is `null`
or has no `jsonLd` blob. -/
def ikeaTransform (productData : Option RawProduct) : Option StandardRecord :=
  match productData with
  | none => none
  | some r =>
    match r.jsonLd with
    | none => none
    | some ld =>
      some {
        retailer := "IKEA"
        product_id := r.productId
        name := jsOr ld.name ""
        slug := r.slug
        price := ld.offers
        url := r.url
        image_url := none
        description := none }

/-- Transform of the Article adapter: JSON-LD shape, then manual shape,
otherwise `null`. -/
def articleTransform (productData : Option RawProduct) : Option StandardRecord :=
  match productData with
  | none => none
  | some r =>
    match r.jsonLd with
    | some ld =>
      some {
        retailer := "Article"
        product_id := r.productId
        name := jsOr ld.name ""
        slug := r.slug
        price := ld.offers
        url := r.url
        image_url := none
        description := none }
    | none =>
      if r.manualExtraction then
        some {
          retailer := "Article"
          product_id := r.productId
          name := jsOr r.name ""
          slug := r.slug
          price := some (jsOr r.price "")
          url := r.url
          image_url := none
          description := none }
      else
        none

/-- Raw record of Scenario E: `name: "Chair"` and no identifier anywhere. -/
def chairRaw : RawProduct :=
  { jsonLd := none
    manualExtraction := false
    url := none
    slug := none
    productId := none
    name := some "Chair"
    price := none
    imageUrl := none
    description := none }

/-! ## Adapter registry (`adapter-factory.js`) -/

/-- The four concrete adapters the factory can construct. -/
inductive AdapterKind
  | ikea
  | wayfair
  | article
  | firstdibs
deriving Repr, DecidableEq

/-- JS `String.prototype.toLowerCase` modelled character-wise. -/
def strToLower (s : String) : String := ⟨s.data.map Char.toLower⟩

/-- Registry resolution `AdapterFactory.getAdapter`: lower-case the incoming
identifier, switch over the four known retailers, otherwise throw an
`Unsupported retailer` error carrying only the offending identifier. -/
def getAdapter (retailer : String) : Except String AdapterKind :=
  let retailerLower := strToLower retailer
  if retailerLower = "ikea" then .ok .ikea
  else if retailerLower = "wayfair" then .ok .wayfair
  else if retailerLower = "article" then .ok .article
  else if retailerLower = "1stdibs" then .ok .firstdibs
  else .error ("Unsupported retailer: " ++ retailer)

/-- The list `AdapterFactory.getSupportedRetailers` returns. -/
def getSupportedRetailers : List String := ["IKEA", "Wayfair", "Article", "1stDibs"]

/-- Character-list test that `pre` starts `l` (helper for substring search). -/
def chStarts : List Char → List Char → Bool
  | [], _ => true
  | _ :: _, [] => false
  | a :: as, b :: bs => a = b && chStarts as bs

/-- Character-list substring test (helper for checking what an error message
mentions). -/
def chSub (sub : List Char) : List Char → Bool
  | [] => chStarts sub []
  | b :: bs => chStarts sub (b :: bs) || chSub sub bs

/-- String-level substring test: does `msg` mention `sub`? -/
def strMentions (msg sub : String) : Bool :=
  chSub sub.data msg.data

/-! ## Retry combinator (`FirstDibsAdapter.retry`)

The `retries` parameter is a JS number; its default is
`this.retryAttempts`, a property never assigned anywhere in the class or its
base, hence `undefined`.  `undefined <= 1` is `false` (NaN comparison) and
`undefined - 1` is `NaN`, so the recursion structure must model these
non-numeric values explicitly. -/

/-- JS numeric value as it flows through `retry`: a genuine integer, `NaN`,
or `undefined`. -/
inductive JSNum
  | int (n : Int)
  | nan
  | undef
deriving Repr, DecidableEq

/-- JS `retries <= 1`: false whenever `retries` converts to `NaN`. -/
def JSNum.leOne : JSNum → Bool
  | .int n => n ≤ 1
  | .nan => false
  | .undef => false

/-- JS `retries - 1`: arithmetic on `undefined` or `NaN` yields `NaN`. -/
def JSNum.sub1 : JSNum → JSNum
  | .int n => .int (n - 1)
  | .nan => .nan
  | .undef => .nan

/-- Outcome of driving `retry` against a function that throws on every
attempt, observed after a finite number of recursion steps. -/
inductive RetryOutcome
  | gaveUp (attempts : Nat)
  | stillRunning
deriving Repr, DecidableEq

/-- Executes `retry(fn, retries, _)` with an always-throwing `fn` for at most
`fuel` recursive calls, counting attempts.  Each step performs one attempt;
if `retries <= 1` the error is rethrown (the combinator gives up), otherwise
it recurses with `retries - 1`. -/
def retryRun (retries : JSNum) (fuel : Nat) (attempts : Nat) : RetryOutcome :=
  match fuel with
  | 0 => .stillRunning
  | fuel' + 1 =>
    if retries.leOne then .gaveUp (attempts + 1)
    else retryRun retries.sub1 fuel' (attempts + 1)

/-! ## Link collection

Two link-collecting loops exist.  `FurnitureScraper.getAllProductLinksFromCategory`
accumulates links into a JS `Set` (insertion-ordered, duplicates dropped) and
spreads it back to an array.  The 1stDibs test script's `extractProductLinks`
helper pushes each page's links onto a plain array with no deduplication.
Both are modelled over a `feed`: the list of per-page link lists the adapter
yields, one entry per page, with `goToNextPage` succeeding while pages
remain. -/

/-- JS `Set.prototype.add` restricted to a duplicate-free accumulator list:
appends the element unless already present (insertion order preserved). -/
def addNew (acc : List String) (l : String) : List String :=
  if l ∈ acc then acc else acc ++ [l]

/-- One iteration body of `getAllProductLinksFromCategory`: add every link of
the current page to the set. -/
def addPage (acc : List String) (page : List String) : List String :=
  page.foldl addNew acc

/-- The orchestrator's `getAllProductLinksFromCategory` over a page feed:
extract each page in turn, `Set`-insert every link, return the spread set. -/
def getAllProductLinksModel (feed : List (List String)) : List String :=
  feed.foldl addPage []

/-- Pagination loop of the 1stDibs test script helper `extractProductLinks`
after the initial extraction: while another page exists and
`currentPage < maxPages`, append the next page's links unchanged. -/
def extractLinksGo (rest : List (List String)) (currentPage maxPages : Nat)
    (acc : List String) : List String :=
  if currentPage < maxPages then
    match rest with
    | [] => acc
    | l :: rest' => extractLinksGo rest' (currentPage + 1) maxPages (acc ++ l)
  else acc

/-- The test script's `extractProductLinks` helper: initial extraction of the
first page, then the pagination loop; no deduplication anywhere. -/
def extractProductLinksHelper (feed : List (List String)) (maxPages : Nat) : List String :=
  match feed with
  | [] => []
  | first :: rest => extractLinksGo rest 1 maxPages first

/-! ## Run orchestrator (`FurnitureScraper.run`) and per-product pipeline

The per-product unit of work in `run()` (links are mapped through the
`p-limit` limiter) is modelled by its observable per-URL effects.  Because
the collected links are duplicate-free and the crawled-cache set only grows,
the set of per-unit decisions is interleaving-independent, so the fold below
processes units in submission order.  The effectful collaborators (browser
launch, page creation, link collection, final cache write) are supplied as
explicit `Except` outcomes. -/

/-- Possible fates of one product URL's unit of work in `run()`. -/
inductive UnitOutcome
  | pageFails
  | extractThrows
  | extractNull
  | saveFails
  | saveOk
deriving Repr, DecidableEq

/-- Observable events of the product-processing stage, in program order. -/
inductive Ev
  | skipped (url : String)
  | pageOpened (url : String)
  | extractCalled (url : String)
  | storageOk (url : String)
  | storageFail (url : String)
  | pageClosed (url : String)
deriving Repr, DecidableEq

/-- Mutable state threaded through the per-product tasks: the crawled-cache
set (as an insertion-ordered duplicate-free list), the event trace, and the
three counters of the statistics record. -/
structure PState where
  cache : List String
  trace : List Ev
  succ : Nat
  err : Nat
  skip : Nat
deriving Repr, DecidableEq

/-- One per-product task from `run()`: skip (before any page acquisition)
when the URL is in the cache; otherwise open a page, extract, store, count,
and close the page — the `close` is reached only on the non-throwing path,
and the task-level `catch` swallows errors into `errorCount`. -/
def processOne (unit : String → UnitOutcome) (s : PState) (url : String) : PState :=
  if url ∈ s.cache then
    { s with trace := s.trace ++ [.skipped url], skip := s.skip + 1 }
  else
    match unit url with
    | .pageFails =>
      { s with err := s.err + 1 }
    | .extractThrows =>
      { s with trace := s.trace ++ [.pageOpened url, .extractCalled url], err := s.err + 1 }
    | .extractNull =>
      { s with
        trace := s.trace ++ [.pageOpened url, .extractCalled url, .pageClosed url]
        err := s.err + 1 }
    | .saveFails =>
      { s with
        trace := s.trace ++
          [.pageOpened url, .extractCalled url, .storageFail url, .pageClosed url]
        err := s.err + 1 }
    | .saveOk =>
      { cache := s.cache ++ [url]
        trace := s.trace ++
          [.pageOpened url, .extractCalled url, .storageOk url, .pageClosed url]
        succ := s.succ + 1
        err := s.err
        skip := s.skip }

/-- The whole product-processing stage: fold the per-product task over the
collected links, starting from the cache loaded at run start. -/
def processProducts (cache0 : List String) (links : List String)
    (unit : String → UnitOutcome) : PState :=
  links.foldl (processOne unit) { cache := cache0, trace := [], succ := 0, err := 0, skip := 0 }

/-- Category descriptor as returned by `adapter.getCategories()`. -/
structure Category where
  name : String
  url : String
deriving Repr, DecidableEq

/-- Environment of one `run()` invocation: configuration, adapter-provided
categories, loaded cache, and the outcomes of each effectful collaborator
call in the order `run()` performs them. -/
structure RunEnv where
  categoryUrl : Option String
  categories : List Category
  cache0 : List String
  browserLaunch : Except String Unit
  newPageCat : Except String Unit
  collect : Except String (List String)
  unit : String → UnitOutcome
  saveCacheResult : Except String Unit

/-- Statistics record `run()` returns. -/
structure Stats where
  totalProducts : Nat
  successCount : Nat
  errorCount : Nat
  skippedCount : Nat
deriving Repr, DecidableEq

/-- Result of a normally-completing run: the statistics, the cache as
persisted by `saveCache`, and the event trace of the processing stage. -/
structure RunResult where
  stats : Stats
  savedCache : List String
  trace : List Ev
deriving Repr, DecidableEq

/-- Category determination at the top of `run()`: explicit configured URL,
else the first adapter category, else a thrown configuration error. -/
def categoryOf (env : RunEnv) : Except String String :=
  match env.categoryUrl with
  | some u => .ok u
  | none =>
    match env.categories with
    | c :: _ => .ok c.url
    | [] => .error "No category URL specified and adapter did not provide default categories"

/-- Shallow embedding of `FurnitureScraper.run()`: determine the category
(throw on configuration error), load the cache, launch the browser (failure
propagates), then inside the `try` block create the category page, collect
links, process every product, and save the cache; any error thrown in the
`try` block is logged and rethrown by the `catch`, so it surfaces as an
`error` result after the `finally` closes the browser. -/
def runModel (env : RunEnv) : Except String RunResult :=
  match categoryOf env with
  | .error e => .error e
  | .ok _ =>
    match env.browserLaunch with
    | .error e => .error e
    | .ok _ =>
      match env.newPageCat with
      | .error e => .error e
      | .ok _ =>
        match env.collect with
        | .error e => .error e
        | .ok links =>
          let r := processProducts env.cache0 links env.unit
          match env.saveCacheResult with
          | .error e => .error e
          | .ok _ =>
            .ok {
              stats := {
                totalProducts := links.length
                successCount := r.succ
                errorCount := r.err
                skippedCount := r.skip }
              savedCache := r.cache
              trace := r.trace }

/-- URLs whose storage write succeeded, read off the event trace. -/
def okUrls (trace : List Ev) : List String :=
  trace.filterMap fun e =>
    match e with
    | .storageOk u => some u
    | _ => none

/-! ## Crawl cache persistence (`loadCache` / `saveCache`)

`saveCache` writes `JSON.stringify([...cache])`; `loadCache` reads the file,
`JSON.parse`s it and builds `new Set(...)`.  The persisted medium is modelled
at the JSON-value level (the runtime's `stringify`/`parse` pair is an
external collaborator that is the identity on JSON values); the repo-owned
content is the set-to-array spread and the array-to-set construction. -/

/-- JSON value as stored in the cache file. -/
inductive JVal
  | jstr (s : String)
  | jarr (elems : List JVal)
  | jother

/-- The `saveCache` serialization: spread the set (insertion-ordered list of
distinct elements) into a JSON array of strings. -/
def saveCacheModel (cache : List String) : JVal :=
  .jarr (cache.map .jstr)

/-- JS `new Set(array)`: insert elements in order, dropping duplicates. -/
def setOfArray (elems : List String) : List String :=
  elems.foldl addNew []

/-- The `loadCache` deserialization: on a parsed JSON array take its string
elements into a fresh `Set`; anything unreadable yields the empty set (the
`catch` branch). -/
def loadCacheModel (file : JVal) : List String :=
  match file with
  | .jarr elems =>
    setOfArray (elems.filterMap fun v =>
      match v with
      | .jstr s => some s
      | _ => none)
  | _ => []

/-! ## Concurrency-bounded pipeline: session counting (C5) and
session release (C8) -/

/-- Fates of one unit inside `processProductsWithConcurrency` (the 1stDibs
pipeline): context creation may throw, page creation may throw, extraction
may throw or yield `null`, transformation may yield `null`, or everything
succeeds. -/
inductive PipeOutcome
  | ctxFails
  | pageFails
  | extractThrowsP
  | extractNullP
  | transformNullP
  | okP
deriving Repr, DecidableEq

/-- Resource events of one pipeline unit. -/
inductive PipeEv
  | ctxOpened
  | ctxClosed
  | pageOpenedP
  | pageClosedP
deriving Repr, DecidableEq

/-- Resource trace of one unit of `processProductsWithConcurrency`: the
`try` opens a fresh context then a page; the `finally` closes the page if it
was created and the context if it was created, swallowing close errors — so
every opened resource is closed on every exit path. -/
def pipelineUnitTrace : PipeOutcome → List PipeEv
  | .ctxFails => []
  | .pageFails => [.ctxOpened, .ctxClosed]
  | .extractThrowsP => [.ctxOpened, .pageOpenedP, .pageClosedP, .ctxClosed]
  | .extractNullP => [.ctxOpened, .pageOpenedP, .pageClosedP, .ctxClosed]
  | .transformNullP => [.ctxOpened, .pageOpenedP, .pageClosedP, .ctxClosed]
  | .okP => [.ctxOpened, .pageOpenedP, .pageClosedP, .ctxClosed]

/-- Count of events satisfying `p` in a pipeline-unit trace. -/
def countEv (p : PipeEv → Bool) (t : List PipeEv) : Nat :=
  t.countP p

/-- Abstract state of the concurrency-bounded pipeline, tracking how many
units are pending, admitted by the limiter with their browsing session not
(yet or anymore) open, admitted with their session open, and finished. -/
structure PipeState where
  pending : Nat
  activeClosed : Nat
  activeOpen : Nat
  done : Nat
deriving Repr, DecidableEq

/-- Small-step semantics of the pipeline under the `p-limit` limiter.
`start` admits a queued unit only while fewer than `N` units are running
(the limiter's contract, per the spec's worker-budget model of the external
`p-limit` collaborator); `openSess` is the unit's `browser.newContext()`;
`closeSess` is the unit's `finally` close; `finish` completes a unit —
reachable only after its `finally` has closed the session. -/
inductive PipeStep (N : Nat) : PipeState → PipeState → Prop
  | start (s : PipeState) (hp : 0 < s.pending)
      (hN : s.activeClosed + s.activeOpen < N) :
      PipeStep N s ⟨s.pending - 1, s.activeClosed + 1, s.activeOpen, s.done⟩
  | openSess (s : PipeState) (h : 0 < s.activeClosed) :
      PipeStep N s ⟨s.pending, s.activeClosed - 1, s.activeOpen + 1, s.done⟩
  | closeSess (s : PipeState) (h : 0 < s.activeOpen) :
      PipeStep N s ⟨s.pending, s.activeClosed + 1, s.activeOpen - 1, s.done⟩
  | finish (s : PipeState) (h : 0 < s.activeClosed) :
      PipeStep N s ⟨s.pending, s.activeClosed - 1, s.activeOpen, s.done + 1⟩

/-- Initial pipeline state: all `n` units queued, nothing admitted. -/
def pipeInit (n : Nat) : PipeState := ⟨n, 0, 0, 0⟩

/-- States reachable by the pipeline with worker budget `N`. -/
def pipeReachable (N n : Nat) (s : PipeState) : Prop :=
  Relation.ReflTransGen (PipeStep N) (pipeInit n) s

/-! ## Concrete run environments used by witnesses and counterexamples -/

/-- Run environment in which the first category page's link extraction
throws (as the IKEA, Wayfair and Article adapters do when `page.goto`
fails), while every other collaborator behaves. -/
def envCollectFails : RunEnv :=
  { categoryUrl := some "https://www.1stdibs.com/furniture/seating/"
    categories := []
    cache0 := []
    browserLaunch := .ok ()
    newPageCat := .ok ()
    collect := .error "Navigation timeout during first category page extraction"
    unit := fun _ => .saveOk
    saveCacheResult := .ok () }

/-- Run environment in which collection succeeds but every product unit
throws during extraction. -/
def envAllUnitsFail : RunEnv :=
  { categoryUrl := some "https://www.1stdibs.com/furniture/seating/"
    categories := []
    cache0 := []
    browserLaunch := .ok ()
    newPageCat := .ok ()
    collect := .ok ["u1", "u2"]
    unit := fun _ => .extractThrows
    saveCacheResult := .ok () }

/-- Run environment with URL `X` pre-cached and collection yielding
`[X, Y]`, every attempted unit succeeding. -/
def envSkipDemo : RunEnv :=
  { categoryUrl := some "cat"
    categories := []
    cache0 := ["X"]
    browserLaunch := .ok ()
    newPageCat := .ok ()
    collect := .ok ["X", "Y"]
    unit := fun _ => .saveOk
    saveCacheResult := .ok () }

/-- The run result `runModel envSkipDemo` computes to. -/
def resSkipDemo : RunResult :=
  { stats := { totalProducts := 2, successCount := 1, errorCount := 0, skippedCount := 1 }
    savedCache := ["X", "Y"]
    trace := [Ev.skipped "X", Ev.pageOpened "Y", Ev.extractCalled "Y",
      Ev.storageOk "Y", Ev.pageClosed "Y"] }

/-- Run environment of Scenario D: cache `{X}`, collection `{X, Y, Z}`,
unit `Y` succeeds, unit `Z` fails at the storage write. -/
def envFinalDemo : RunEnv :=
  { categoryUrl := some "cat"
    categories := []
    cache0 := ["X"]
    browserLaunch := .ok ()
    newPageCat := .ok ()
    collect := .ok ["X", "Y", "Z"]
    unit := fun u => if u = "Y" then .saveOk else .saveFails
    saveCacheResult := .ok () }

/-- The run result `runModel envFinalDemo` computes to. -/
def resFinalDemo : RunResult :=
  { stats := { totalProducts := 3, successCount := 1, errorCount := 1, skippedCount := 1 }
    savedCache := ["X", "Y"]
    trace := [Ev.skipped "X", Ev.pageOpened "Y", Ev.extractCalled "Y",
      Ev.storageOk "Y", Ev.pageClosed "Y", Ev.pageOpened "Z", Ev.extractCalled "Z",
      Ev.storageFail "Z", Ev.pageClosed "Z"] }

/-- Invariant tying the in-memory crawled-cache set to the storage events
recorded so far: the cache is the initial cache (as a finite set `C`) plus
exactly the URLs whose storage write succeeded. -/
def cacheInv (C : Finset String) (s : PState) : Prop :=
  s.cache.toFinset = C ∪ (okUrls s.trace).toFinset

/-! ## Theorems -/

/-- Helper for C3: once `retries` has become `NaN`, the give-up guard
`retries <= 1` is false forever, so the recursion never terminates. -/
lemma retryRun_nan_stillRunning : ∀ (fuel attempts : Nat),
    retryRun .nan fuel attempts = .stillRunning := by
  intro fuel
  induction fuel with
  | zero => intro a; rfl
  | succ n ih =>
    intro a
    simp only [retryRun, JSNum.leOne, JSNum.sub1, Bool.false_eq_true, if_false]
    exact ih (a + 1)

/-- C3 (code bug): with its default arguments (`retries =
this.retryAttempts`, a property never assigned, hence `undefined`), the
1stDibs adapter's `retry` never gives up on an always-failing function: the
guard `retries <= 1` is false for `undefined` and for the `NaN` the
decrement produces, so after any finite number of attempts the combinator is
still retrying — contradicting the documented bounded-attempt behavior. -/
theorem C3_retry_default_unbounded : ∀ (fuel attempts : Nat),
    retryRun JSNum.undef fuel attempts = RetryOutcome.stillRunning := by
  intro fuel attempts
  cases fuel with
  | zero => rfl
  | succ n =>
    simp only [retryRun, JSNum.leOne, JSNum.sub1, Bool.false_eq_true, if_false]
    exact retryRun_nan_stillRunning n (attempts + 1)

/-- C2 counterexample: the 1stDibs transform applied to the Scenario E
record (`name: "Chair"`, no identifier anywhere) returns a non-null record
whose `product_id` is `undefined`, falsifying the claim that every adapter
returns `null` for identifier-less records. -/
theorem C2_counterexample :
    firstDibsTransform (some chairRaw) ≠ none ∧
    (firstDibsTransform (some chairRaw)).map StandardRecord.product_id = some none := by
  decide

/-- C2 (corrected): `transformProductData(null) = null` holds for all four
adapters, and the Wayfair, IKEA and Article transforms return `null` for any
record carrying neither a `jsonLd` blob nor the `manualExtraction` marker
(such as the Scenario E record); the 1stDibs transform, however, never
rejects a non-null record — it passes the raw `productId` through unchanged,
`undefined` included. -/
theorem C2_amended :
    (firstDibsTransform none = none ∧ wayfairTransform none = none ∧
      ikeaTransform none = none ∧ articleTransform none = none) ∧
    (∀ r : RawProduct, r.jsonLd = none → r.manualExtraction = false →
      wayfairTransform (some r) = none ∧ ikeaTransform (some r) = none ∧
      articleTransform (some r) = none) ∧
    (∀ r : RawProduct,
      (firstDibsTransform (some r)).map StandardRecord.product_id = some r.productId) := by
  refine ⟨⟨rfl, rfl, rfl, rfl⟩, ?_, ?_⟩
  · intro r h1 h2
    refine ⟨?_, ?_, ?_⟩ <;> simp [wayfairTransform, ikeaTransform, articleTransform, h1, h2]
  · intro r; rfl

/-- C2 witness: the amended theorem applied to the concrete Scenario E
record. -/
theorem C2_witness :
    wayfairTransform (some chairRaw) = none ∧
    (firstDibsTransform (some chairRaw)).map StandardRecord.product_id = some none :=
  ⟨(C2_amended.2.1 chairRaw rfl rfl).1, C2_amended.2.2 chairRaw⟩

/-- C6 counterexample: the factory's error for an unknown retailer carries
only the offending identifier; its message mentions none of the four
supported retailer names, falsifying the claim that the message lists the
supported set. -/
theorem C6_counterexample :
    getAdapter "bogus" = .error "Unsupported retailer: bogus" ∧
    strMentions "Unsupported retailer: bogus" "IKEA" = false ∧
    strMentions "Unsupported retailer: bogus" "Wayfair" = false ∧
    strMentions "Unsupported retailer: bogus" "Article" = false ∧
    strMentions "Unsupported retailer: bogus" "1stDibs" = false := by
  refine ⟨by simp [getAdapter, strToLower], by decide, by decide, by decide, by decide⟩

/-- C6 (corrected): resolution is case-insensitive — any identifier
lower-casing to one of `ikea`/`wayfair`/`article`/`1stdibs` yields the
corresponding adapter — and any identifier outside that set fails with an
`Unsupported retailer` error naming the identifier (but not the supported
set, which is available separately via `getSupportedRetailers`). -/
theorem C6_amended :
    (∀ s, strToLower s = "ikea" → getAdapter s = .ok .ikea) ∧
    (∀ s, strToLower s = "wayfair" → getAdapter s = .ok .wayfair) ∧
    (∀ s, strToLower s = "article" → getAdapter s = .ok .article) ∧
    (∀ s, strToLower s = "1stdibs" → getAdapter s = .ok .firstdibs) ∧
    (∀ s, strToLower s ∉ ["ikea", "wayfair", "article", "1stdibs"] →
      getAdapter s = .error ("Unsupported retailer: " ++ s)) ∧
    getSupportedRetailers = ["IKEA", "Wayfair", "Article", "1stDibs"] := by
  refine ⟨?_, ?_, ?_, ?_, ?_, rfl⟩
  · intro s h; simp [getAdapter, h]
  · intro s h; simp [getAdapter, h]
  · intro s h; simp [getAdapter, h]
  · intro s h; simp [getAdapter, h]
  · intro s h
    simp only [List.mem_cons, List.mem_singleton, not_or, List.not_mem_nil] at h
    simp [getAdapter, h.1, h.2.1, h.2.2.1, h.2.2.2.1]

/-- C6 witness: the amended theorem applied to the mixed-case known
identifier `IKEA` and the unknown identifier `shopify`. -/
theorem C6_witness :
    getAdapter "IKEA" = .ok .ikea ∧
    getAdapter "shopify" = .error "Unsupported retailer: shopify" :=
  ⟨C6_amended.1 "IKEA" (by decide), C6_amended.2.2.2.2.1 "shopify" (by decide)⟩

/-- Helper for C7/C10: `Set.add` keeps the accumulator duplicate-free. -/
lemma addNew_nodup {acc : List String} (h : acc.Nodup) (l : String) : (addNew acc l).Nodup := by
  unfold addNew
  by_cases hm : l ∈ acc
  · simpa [hm] using h
  · simp [hm, List.nodup_append, h]

/-- Helper for C7: `Set.add` inserts the element into the accumulated set. -/
lemma addNew_toFinset (acc : List String) (l : String) :
    (addNew acc l).toFinset = acc.toFinset ∪ {l} := by
  unfold addNew
  by_cases hm : l ∈ acc
  · simp [hm]
  · simp [hm, List.toFinset_append]

/-- Helper for C7: folding `Set.add` over a page keeps the set
duplicate-free. -/
lemma foldl_addNew_nodup : ∀ (page acc : List String),
    acc.Nodup → (page.foldl addNew acc).Nodup := by
  intro page
  induction page with
  | nil => intro acc h; simpa using h
  | cons x xs ih => intro acc h; exact ih (addNew acc x) (addNew_nodup h x)

/-- Helper for C7: folding `Set.add` over a page unions the page's URLs
into the set. -/
lemma foldl_addNew_toFinset : ∀ (page acc : List String),
    (page.foldl addNew acc).toFinset = acc.toFinset ∪ page.toFinset := by
  intro page
  induction page with
  | nil => intro acc; simp
  | cons x xs ih =>
    intro acc
    simp only [List.foldl_cons, ih (addNew acc x), addNew_toFinset]
    rw [List.toFinset_cons]
    ext a
    simp [or_comm, or_assoc, or_left_comm]

/-- Helper for C7: the whole pagination loop keeps the set duplicate-free. -/
lemma foldl_addPage_nodup : ∀ (feed : List (List String)) (acc : List String),
    acc.Nodup → (feed.foldl addPage acc).Nodup := by
  intro feed
  induction feed with
  | nil => intro acc h; simpa using h
  | cons p rest ih => intro acc h; exact ih (addPage acc p) (foldl_addNew_nodup p acc h)

/-- Helper for C7: the whole pagination loop accumulates exactly the URLs
of the flattened feed. -/
lemma foldl_addPage_toFinset : ∀ (feed : List (List String)) (acc : List String),
    (feed.foldl addPage acc).toFinset = acc.toFinset ∪ feed.flatten.toFinset := by
  intro feed
  induction feed with
  | nil => intro acc; simp
  | cons p rest ih =>
    intro acc
    simp only [List.foldl_cons, ih (addPage acc p)]
    unfold addPage
    rw [foldl_addNew_toFinset]
    simp [List.toFinset_append, Finset.union_assoc]

/-- C7 (corrected): the orchestrator's `getAllProductLinksFromCategory`
returns a list with no repeated URL whose length is the number of distinct
URLs in the page feed; the 1stDibs test script's `extractProductLinks`
helper, by contrast, performs no deduplication (see the counterexample). -/
theorem C7_amended : ∀ feed : List (List String),
    (getAllProductLinksModel feed).Nodup ∧
    (getAllProductLinksModel feed).length = feed.flatten.toFinset.card := by
  intro feed
  have hn : (getAllProductLinksModel feed).Nodup := foldl_addPage_nodup feed [] (by simp)
  refine ⟨hn, ?_⟩
  have ht : (getAllProductLinksModel feed).toFinset = feed.flatten.toFinset := by
    have := foldl_addPage_toFinset feed []
    simpa [getAllProductLinksModel] using this
  rw [← ht, List.toFinset_card_of_nodup hn]

/-- C7 counterexample: on a feed whose single page lists the same URL
twice, the test script's `extractProductLinks` helper returns a list with a
repeated URL whose length differs from the distinct-URL count, falsifying
the claim for that cited link-collection operation. -/
theorem C7_counterexample :
    extractProductLinksHelper [["a", "a"]] 3 = ["a", "a"] ∧
    ¬ (extractProductLinksHelper [["a", "a"]] 3).Nodup ∧
    (extractProductLinksHelper [["a", "a"]] 3).length ≠
      ([["a", "a"]] : List (List String)).flatten.toFinset.card := by
  decide

/-- C8 (corrected): in the 1stDibs pipeline `processProductsWithConcurrency`
every unit releases its browsing session on every exit path — for each
possible unit fate, the resource trace closes the context exactly as often
as it opens it, and likewise for the page (the `finally` block guarantees
this); the orchestrator's per-product task, by contrast, leaks its page when
extraction throws (see the counterexample). -/
theorem C8_amended : ∀ o : PipeOutcome,
    countEv (fun e => e == PipeEv.ctxOpened) (pipelineUnitTrace o) =
      countEv (fun e => e == PipeEv.ctxClosed) (pipelineUnitTrace o) ∧
    countEv (fun e => e == PipeEv.pageOpenedP) (pipelineUnitTrace o) =
      countEv (fun e => e == PipeEv.pageClosedP) (pipelineUnitTrace o) := by
  intro o
  cases o <;> exact ⟨rfl, rfl⟩

/-- C8 counterexample: in `FurnitureScraper.run()`'s per-product task a
throwing `extractProductData` reaches the task's `catch` before
`productPage.close()`, so the trace opens the page and never closes it —
falsifying release-on-every-exit-path for that unit of work. -/
theorem C8_counterexample :
    (processProducts [] ["u"] (fun _ => .extractThrows)).trace
      = [Ev.pageOpened "u", Ev.extractCalled "u"] ∧
    Ev.pageOpened "u" ∈ (processProducts [] ["u"] (fun _ => .extractThrows)).trace ∧
    Ev.pageClosed "u" ∉ (processProducts [] ["u"] (fun _ => .extractThrows)).trace := by
  decide

/-- Helper for C10: folding `Set.add` over fresh, duplicate-free input
appends it unchanged. -/
lemma foldl_addNew_of_disjoint : ∀ (l acc : List String),
    (∀ x ∈ l, x ∉ acc) → l.Nodup → l.foldl addNew acc = acc ++ l := by
  intro l
  induction l with
  | nil => intro acc _ _; simp
  | cons x xs ih =>
    intro acc hdisj hnd
    have hx : x ∉ acc := hdisj x (by simp)
    have hstep : addNew acc x = acc ++ [x] := by simp [addNew, hx]
    rw [List.foldl_cons, hstep, ih (acc ++ [x]) ?_ (List.Nodup.of_cons hnd)]
    · simp
    · intro y hy
      simp only [List.mem_append, List.mem_singleton, not_or]
      exact ⟨hdisj y (by simp [hy]), fun e => (List.nodup_cons.mp hnd).1 (e ▸ hy)⟩

/-- C10 (confirmed): persisting a crawled-cache set with `saveCache`
(spread into a JSON array of its elements) and re-loading it with
`loadCache` (JSON array into a fresh `Set`) is the identity on sets of URL
strings — stated for the duplicate-free element list a JS `Set` spreads
to. -/
theorem C10_cache_roundtrip : ∀ cache : List String,
    cache.Nodup → loadCacheModel (saveCacheModel cache) = cache := by
  intro c h
  have hfm : ∀ l : List String, (l.map JVal.jstr).filterMap
      (fun v => match v with | JVal.jstr s => some s | _ => none) = l := by
    intro l
    induction l with
    | nil => rfl
    | cons x xs ih => simp [List.filterMap_cons, ih]
  show setOfArray _ = c
  rw [hfm c]
  unfold setOfArray
  have hf := foldl_addNew_of_disjoint c [] (by simp) h
  rw [List.nil_append] at hf
  exact hf

/-- C10 witness: the round trip evaluated on the concrete cache
`["a", "b"]`. -/
theorem C10_witness :
    (["a", "b"] : List String).Nodup ∧
    loadCacheModel (saveCacheModel ["a", "b"]) = ["a", "b"] :=
  ⟨by decide, C10_cache_roundtrip ["a", "b"] (by decide)⟩

/-- C1 counterexample: when link extraction for the first category page
throws (as the IKEA, Wayfair and Article adapters do on a navigation
failure), `run()`'s `catch` block rethrows, so the failure propagates out of
`run()` instead of degrading to an empty collection — falsifying the claim
that a first-page extraction failure never propagates as fatal. -/
theorem C1_counterexample :
    runModel envCollectFails
      = .error "Navigation timeout during first category page extraction" := rfl

/-- C1 (corrected): whenever the category is resolvable and the browser,
category page, link collection and final cache write all succeed, `run()`
returns a statistics record regardless of per-unit outcomes — every
individual product failure is caught and counted; but an exception thrown
during link collection (or page acquisition or the final cache write) is
rethrown by `run()`'s `catch` block and aborts the run. -/
theorem C1_amended : ∀ (env : RunEnv) (c : String) (links : List String),
    categoryOf env = .ok c →
    env.browserLaunch = .ok () →
    env.newPageCat = .ok () →
    env.collect = .ok links →
    env.saveCacheResult = .ok () →
    ∃ res : RunResult, runModel env = .ok res := by
  intro env c links h1 h2 h3 h4 h5
  unfold runModel
  rw [h1, h2, h3, h4, h5]
  exact ⟨_, rfl⟩

/-- C1 witness: the amended theorem applied to the concrete environment in
which every product unit throws during extraction — the run still returns a
summary. -/
theorem C1_witness : ∃ res : RunResult, runModel envAllUnitsFail = .ok res :=
  C1_amended envAllUnitsFail "https://www.1stdibs.com/furniture/seating/" ["u1", "u2"]
    rfl rfl rfl rfl rfl

/-- Helper for C4: one per-product task neither evicts a cached URL nor
calls extraction on it. -/
lemma processOne_skip_preserve (unit : String → UnitOutcome) (url : String) :
    ∀ (s : PState) (l : String),
    url ∈ s.cache → Ev.extractCalled url ∉ s.trace →
    url ∈ (processOne unit s l).cache ∧ Ev.extractCalled url ∉ (processOne unit s l).trace := by
  intro s l hc ht
  unfold processOne
  by_cases h : l ∈ s.cache
  · simp [h, hc, ht]
  · have hne : url ≠ l := fun e => h (e ▸ hc)
    cases unit l <;> simp [h, hc, ht, hne]

/-- Helper for C4: the whole product-processing fold preserves cached-URL
membership and never records an extraction for a cached URL. -/
lemma processFold_skip_preserve (unit : String → UnitOutcome) (url : String) :
    ∀ (links : List String) (s : PState),
    url ∈ s.cache → Ev.extractCalled url ∉ s.trace →
    url ∈ (links.foldl (processOne unit) s).cache ∧
      Ev.extractCalled url ∉ (links.foldl (processOne unit) s).trace := by
  intro links
  induction links with
  | nil => intro s hc ht; exact ⟨hc, ht⟩
  | cons l ls ih =>
    intro s hc ht
    have hstep := processOne_skip_preserve unit url s l hc ht
    exact ih (processOne unit s l) hstep.1 hstep.2

/-- C4 (confirmed): in any normally-completing run, a URL present in the
cache loaded at run start is never extracted — the per-product task returns
as skipped before any extraction, so no `extractCalled` event for it appears
in the run's trace. -/
theorem C4_cache_skip : ∀ (env : RunEnv) (res : RunResult) (url : String),
    runModel env = .ok res → url ∈ env.cache0 →
    Ev.extractCalled url ∉ res.trace := by
  intro env res url hrun hmem
  unfold runModel at hrun
  cases h1 : categoryOf env <;> rw [h1] at hrun
  case error => cases hrun
  case ok =>
  cases h2 : env.browserLaunch <;> rw [h2] at hrun
  case error => cases hrun
  case ok =>
  cases h3 : env.newPageCat <;> rw [h3] at hrun
  case error => cases hrun
  case ok =>
  cases h4 : env.collect <;> rw [h4] at hrun
  case error => cases hrun
  case ok links =>
  cases h5 : env.saveCacheResult <;> rw [h5] at hrun
  case error => cases hrun
  case ok =>
  cases hrun
  exact (processFold_skip_preserve env.unit url links _ hmem (by simp)).2

/-- C4 witness: the theorem applied to the concrete run with `X` cached and
collection `[X, Y]`. -/
theorem C4_witness :
    "X" ∈ envSkipDemo.cache0 ∧ Ev.extractCalled "X" ∉ resSkipDemo.trace :=
  ⟨by decide, C4_cache_skip envSkipDemo resSkipDemo "X" rfl (by decide)⟩

/-- Helper for C9: `okUrls` distributes over trace concatenation. -/
lemma okUrls_append (t1 t2 : List Ev) : okUrls (t1 ++ t2) = okUrls t1 ++ okUrls t2 :=
  List.filterMap_append t1 t2 _

/-- Helper for C9: each per-product task preserves the cache invariant —
the cache equals the initial cache plus exactly the successfully written
URLs. -/
lemma processOne_cacheInv (unit : String → UnitOutcome) (C : Finset String) :
    ∀ (s : PState) (l : String), cacheInv C s → cacheInv C (processOne unit s l) := by
  intro s l h
  unfold cacheInv at h ⊢
  unfold processOne
  by_cases hm : l ∈ s.cache
  · simp [hm, okUrls_append, okUrls, h]
  · cases unit l <;>
      simp [hm, okUrls_append, okUrls, h, List.toFinset_append, Finset.union_assoc]

/-- Helper for C9: the product-processing fold preserves the cache
invariant. -/
lemma processFold_cacheInv (unit : String → UnitOutcome) (C : Finset String) :
    ∀ (links : List String) (s : PState),
    cacheInv C s → cacheInv C (links.foldl (processOne unit) s) := by
  intro links
  induction links with
  | nil => intro s h; exact h
  | cons l ls ih => intro s h; exact ih _ (processOne_cacheInv unit C s l h)

/-- C9 (confirmed): for every normally-completing run, the cache persisted
at run end equals the loaded cache united with exactly the URLs whose
record was successfully written to the storage sink during the run —
failed extractions, transformations and storage writes contribute
nothing. -/
theorem C9_final_cache : ∀ (env : RunEnv) (res : RunResult),
    runModel env = .ok res →
    res.savedCache.toFinset = env.cache0.toFinset ∪ (okUrls res.trace).toFinset := by
  intro env res hrun
  unfold runModel at hrun
  cases h1 : categoryOf env <;> rw [h1] at hrun
  case error => cases hrun
  case ok =>
  cases h2 : env.browserLaunch <;> rw [h2] at hrun
  case error => cases hrun
  case ok =>
  cases h3 : env.newPageCat <;> rw [h3] at hrun
  case error => cases hrun
  case ok =>
  cases h4 : env.collect <;> rw [h4] at hrun
  case error => cases hrun
  case ok links =>
  cases h5 : env.saveCacheResult <;> rw [h5] at hrun
  case error => cases hrun
  case ok =>
  cases hrun
  exact processFold_cacheInv env.unit env.cache0.toFinset links _ (by simp [cacheInv, okUrls])

/-- C9 witness: the theorem applied to the Scenario D run — cache `{X}`,
collection `{X, Y, Z}`, `Y` written successfully, `Z`'s write failing —
whose persisted cache is `{X, Y}`. -/
theorem C9_witness :
    resFinalDemo.savedCache.toFinset
      = envFinalDemo.cache0.toFinset ∪ (okUrls resFinalDemo.trace).toFinset :=
  C9_final_cache envFinalDemo resFinalDemo rfl

/-- Helper for C5: every reachable pipeline state has at most `N` admitted
units (the limiter's bound), shown by induction along the step relation. -/
lemma pipe_active_le : ∀ (N n : Nat) (s : PipeState),
    pipeReachable N n s → s.activeClosed + s.activeOpen ≤ N := by
  intro N n s h
  induction h with
  | refl => simp [pipeInit]
  | tail hsteps hstep ih =>
    cases hstep with
    | start hp hN => simp; omega
    | openSess h => simp; omega
    | closeSess h => simp; omega
    | finish h => simp; omega

/-- C5 (confirmed): with worker budget `N`, in every state the pipeline can
reach, the number of simultaneously open browsing sessions attributable to
the pipeline never exceeds `N` — each admitted unit holds at most one open
session and the limiter admits at most `N` units at a time. -/
theorem C5_concurrency_bound : ∀ (N n : Nat) (s : PipeState),
    pipeReachable N n s → s.activeOpen ≤ N := by
  intro N n s h
  have := pipe_active_le N n s h
  omega

/-- C5 witness: the theorem applied to a concrete reachable state of a
3-unit pipeline with budget 2 in which one unit has opened its session. -/
theorem C5_witness : (⟨2, 0, 1, 0⟩ : PipeState).activeOpen ≤ 2 :=
  C5_concurrency_bound 2 3 ⟨2, 0, 1, 0⟩
    (Relation.ReflTransGen.tail
      (Relation.ReflTransGen.tail Relation.ReflTransGen.refl
        (PipeStep.start (pipeInit 3) (by decide) (by decide)))
      (PipeStep.openSess ⟨2, 1, 0, 0⟩ (by decide)))

end Scraper
